import Mathlib

/-!
Verification of the neural-network operator library (`nn/operations.py`,
`nn/operators.py`) against its natural-language specification.

The operators are shallowly embedded over exact rationals (`ℚ`).  Real-valued
transcendental primitives (`np.exp`, `np.log`, `sigmoid`, `np.tanh`) are
abstracted as function parameters, since none of the verified properties
depend on their numeric values.  Fallible numpy computations (shape errors,
`ZeroDivisionError`, invalid configuration) are embedded with `Option` /
`Except`.  Two tensor models are used:

* a typed model (matrices as `Fin`-indexed functions, spatial tensors as
  `ℕ`-indexed functions) for the value-level operators, and
* a dynamic model `NT` (explicit shape list + flat row-major data) for the
  free functions of `nn/operations.py`, where the behaviour under scrutiny is
  precisely numpy shape handling: `np.pad(input, pad_width=(pad,))` pads
  every axis of the array, including batch and channel.
-/

namespace NNVerify

/-- Matrices `(m, n)` as `Fin`-indexed functions into `ℚ`. -/
abbrev Mat (m n : ℕ) : Type := Fin m → Fin n → ℚ

/-- Vectors of length `n`. -/
abbrev Vec (n : ℕ) : Type := Fin n → ℚ

/-- `np.matmul` on 2-D arrays. -/
def matmulF {b i o : ℕ} (x : Mat b i) (w : Mat i o) : Mat b o :=
  fun r c => ∑ k : Fin i, x r k * w k c

/-- `a.T` for a 2-D array. -/
def transposeF {m n : ℕ} (a : Mat m n) : Mat n m :=
  fun i j => a j i

/-- `np.sum(g, axis=0)` for a 2-D array. -/
def colSum {b n : ℕ} (g : Mat b n) : Vec n :=
  fun j => ∑ r : Fin b, g r j

/-- `operations.fc_forward`: `np.matmul(input, weights) + bias.reshape(1, -1)`. -/
def fc_forward {b i o : ℕ} (input : Mat b i) (weights : Mat i o) (bias : Vec o) : Mat b o :=
  fun r c => matmulF input weights r c + bias c

/-- `operations.fc_backward`: returns `(in_grad, w_grad, b_grad)`. -/
def fc_backward {b i o : ℕ} (out_grad : Mat b o) (input : Mat b i) (weights : Mat i o)
    (_bias : Vec o) : Mat b i × Mat i o × Vec o :=
  (matmulF out_grad (transposeF weights), matmulF (transposeF input) out_grad, colSum out_grad)

/-- `operators.matmul.forward`. -/
def matmul_cls_forward {b i o : ℕ} (input : Mat b i) (weights : Mat i o) : Mat b o :=
  matmulF input weights

/-- `operators.matmul.backward`: `(in_grad, w_grad)`. -/
def matmul_cls_backward {b i o : ℕ} (out_grad : Mat b o) (input : Mat b i) (weights : Mat i o) :
    Mat b i × Mat i o :=
  (matmulF out_grad (transposeF weights), matmulF (transposeF input) out_grad)

/-- `operators.add_bias.forward`: `input + bias.reshape(1, -1)`. -/
def add_bias_forward {b n : ℕ} (input : Mat b n) (bias : Vec n) : Mat b n :=
  fun r c => input r c + bias c

/-- `operators.add_bias.backward`: `(in_grad, b_grad)` with `in_grad = out_grad`.
The `input` argument is never read by the source (and `linear.backward` in fact passes
the *matmul* input there), so it is typed generically. -/
def add_bias_backward {b n : ℕ} {α : Sort _} (out_grad : Mat b n) (_input : α) (_bias : Vec n) :
    Mat b n × Vec n :=
  (out_grad, colSum out_grad)

/-- `operators.linear.forward`: `add_bias.forward(matmul.forward(input, weights), bias)`. -/
def linear_forward {b i o : ℕ} (input : Mat b i) (weights : Mat i o) (bias : Vec o) : Mat b o :=
  add_bias_forward (matmul_cls_forward input weights) bias

/-- `operators.linear.backward`: bias gradient first, then the matmul backward on the
reduced gradient, exactly in the order of the source. -/
def linear_backward {b i o : ℕ} (out_grad : Mat b o) (input : Mat b i) (weights : Mat i o)
    (bias : Vec o) : Mat b i × Mat i o × Vec o :=
  let ab := add_bias_backward out_grad input bias
  let mm := matmul_cls_backward ab.1 input weights
  (mm.1, mm.2, ab.2)

/-- The end-to-end scenario input `[[1, 2]]`. -/
def scenarioInput : Mat 1 2 := fun _ j => if j.val = 0 then 1 else 2

/-- The end-to-end scenario identity weights `[[1, 0], [0, 1]]`. -/
def scenarioWeights : Mat 2 2 := fun i j => if i = j then 1 else 0

/-- The end-to-end scenario zero bias `[0, 0]`. -/
def scenarioBias : Vec 2 := fun _ => 0

/-- The end-to-end scenario upstream gradient `[[1, 1]]`. -/
def scenarioOutGrad : Mat 1 2 := fun _ _ => 1

/-!  Output-size formulas.

`operators.get_output_size(n, k, p, s) = int(np.floor((n + p - k) / s) + 1)` with `p` the
*total* padding; it is used by `conv.img2col`, `conv.col2img`, `pool.forward`.
`operations.conv_forward`, `operations.conv_backward`, `operations.pool_forward` and
`operations.pool_backward` all inline `1 + (n - k + 2*pad) // stride`, with `pad` the
*per-side* padding; `operators.pool.backward` inlines `1 + (n - k + pad) // stride` with
`pad` total.  Python `//` and `np.floor` of an exact quotient are both floor division,
i.e. `Int.fdiv`. -/

/-- `operators.get_output_size` (argument order `n k p s` as in the source). -/
def get_output_size (n k p s : ℤ) : ℤ :=
  (n + p - k).fdiv s + 1

/-- The inlined output-size expression `1 + (n - k + 2*pad) // stride` from
`operations.conv_forward` / `conv_backward` / `pool_forward` / `pool_backward`
(`pad` is per-side there). -/
def out_size_ops (n k pad s : ℤ) : ℤ :=
  1 + (n - k + 2 * pad).fdiv s

/-- The inlined output-size expression `1 + (n - k + pad) // stride` from
`operators.pool.backward` (`pad` is total there). -/
def out_size_pool_backward_cls (n k pad s : ℤ) : ℤ :=
  1 + (n - k + pad).fdiv s

/-!  Dropout.

numpy's global random generator is modelled abstractly: `sample st k` is the `k`-th
entry of `np.random.random_sample` drawn when the global generator state is `st`, and
`np.random.seed(seed)` replaces the current global state `g` by `seed`.  The scale
`1/(1-rate)` is computed with no guard in the source; the fallible float division is
embedded as an `Option` that is `none` exactly when the divisor `1 - rate` is zero. -/

/-- `operations.dropout_forward`.  `g` is the incoming global RNG state; the result is
`(output, mask)` (`mask = none` when not training, mirroring `mask = None`). -/
def dropout_forward (sample : ℕ → ℕ → ℚ) (input : List ℚ) (rate : ℚ)
    (training : Bool) (seed : ℕ) (g : ℕ) : Option (List ℚ × Option (List ℚ)) :=
  if training then
    if (1 : ℚ) - rate = 0 then none
    else
      let scale : ℚ := 1 / (1 - rate)
      let _ : ℕ := g    -- np.random.seed(seed) discards the incoming state
      let p : List ℚ := (List.range input.length).map (sample seed)
      let mask : List ℚ := p.map (fun q => if rate ≤ q then 1 else 0)
      some ((input.zip mask).map (fun v => v.1 * v.2 * scale), some mask)
  else
    some (input, none)

/-- `operators.dropout.forward`.  `prevMask` is the incoming `self.mask`; the result is
`(output, new self.mask)`; the stored mask is the *scaled* mask (`self.mask * scale`). -/
def dropout_cls_forward (sample : ℕ → ℕ → ℚ) (input : List ℚ) (rate : ℚ)
    (training : Bool) (seed : ℕ) (prevMask : Option (List ℚ)) (g : ℕ) :
    Option (List ℚ × Option (List ℚ)) :=
  if training then
    if (1 : ℚ) - rate = 0 then none
    else
      let scale : ℚ := 1 / (1 - rate)
      let _ : ℕ := g
      let p : List ℚ := (List.range input.length).map (sample seed)
      let mask01 : List ℚ := p.map (fun q => if rate ≤ q then 1 else 0)
      let mask : List ℚ := mask01.map (· * scale)
      some ((input.zip mask).map (fun v => v.1 * v.2), some mask)
  else
    some (input, prevMask)

/-!  Softmax cross-entropy.

`operations.softmax_cross_entropy_forward` / `_backward` and the methods of
`operators.softmax_cross_entropy` are textually identical.  `np.exp` and `np.log` are
abstracted as parameters `E` and `L`.  The class count is written `c+1` (each row is
nonempty, as `np.max(input, axis=1)` requires), and the batch is written `b+1` (the
loss divides by `batch = len(labels)`). -/

/-- `np.max(input, axis=1, keepdims=True)`: the maximum of row `i`. -/
def rowMax {b c : ℕ} (x : Mat (b + 1) (c + 1)) (i : Fin (b + 1)) : ℚ :=
  Finset.univ.sup' Finset.univ_nonempty (fun j => x i j)

/-- The constant `eps = 1e-12` added inside the log. -/
def sceEps : ℚ := 1 / 10 ^ 12

/-- `input_shift = input - np.max(input, axis=1, keepdims=True)`. -/
def sceShift {b c : ℕ} (x : Mat (b + 1) (c + 1)) : Mat (b + 1) (c + 1) :=
  fun i j => x i j - rowMax x i

/-- `Z = np.sum(np.exp(input_shift), axis=1, keepdims=True)`, row `i`. -/
def sceZ (E : ℚ → ℚ) {b c : ℕ} (x : Mat (b + 1) (c + 1)) (i : Fin (b + 1)) : ℚ :=
  ∑ j : Fin (c + 1), E (sceShift x i j)

/-- `log_probs = input_shift - np.log(Z + eps)`. -/
def sceLogProbs (E L : ℚ → ℚ) {b c : ℕ} (x : Mat (b + 1) (c + 1)) : Mat (b + 1) (c + 1) :=
  fun i j => sceShift x i j - L (sceZ E x i + sceEps)

/-- `operations.softmax_cross_entropy_forward` (textually identical to
`operators.softmax_cross_entropy.forward`): returns `(loss, probs)` with
`probs = np.exp(log_probs)` and
`loss = -1 * np.sum(log_probs[np.arange(batch), labels]) / batch`. -/
def softmax_cross_entropy_forward (E L : ℚ → ℚ) {b c : ℕ} (input : Mat (b + 1) (c + 1))
    (labels : Fin (b + 1) → Fin (c + 1)) : ℚ × Mat (b + 1) (c + 1) :=
  let batch : ℚ := (b : ℚ) + 1
  let probs : Mat (b + 1) (c + 1) := fun i j => E (sceLogProbs E L input i j)
  (-1 * (∑ i : Fin (b + 1), sceLogProbs E L input i (labels i)) / batch, probs)

/-- `operations.softmax_cross_entropy_backward` (textually identical to
`operators.softmax_cross_entropy.backward`): recomputes `probs`, then
`in_grad = probs.copy(); in_grad[np.arange(batch), labels] -= 1; in_grad /= batch`. -/
def softmax_cross_entropy_backward (E L : ℚ → ℚ) {b c : ℕ} (input : Mat (b + 1) (c + 1))
    (labels : Fin (b + 1) → Fin (c + 1)) : Mat (b + 1) (c + 1) :=
  let batch : ℚ := (b : ℚ) + 1
  let probs : Mat (b + 1) (c + 1) := fun i j => E (sceLogProbs E L input i j)
  let g : Mat (b + 1) (c + 1) := fun i j => if j = labels i then probs i j - 1 else probs i j
  fun i j => g i j / batch

/-!  GRU cell (`operators.gru`).

`sigmoid` (imported from the absent `nn/functional.py`) and `np.tanh` are abstracted
as parameters `sg` and `th`; none of the verified properties depend on their values.
The packed `kernel : (in_features, 3*units)` and `recurrent_kernel : (units, 3*units)`
are unpacked into the column blocks `z`, `r`, `h̃` exactly as in the source
(`kernel[:, :units]`, `kernel[:, units:2*units]`, `kernel[:, 2*units:3*units]`). -/

/-- Column block `k[:, :units]` of a packed `(·, 3*units)` matrix (the `z` block). -/
def sliceZ {f u : ℕ} (k : Mat f (3 * u)) : Mat f u :=
  fun i j => k i ⟨j.val, by have := j.isLt; omega⟩

/-- Column block `k[:, units:2*units]` (the `r` block). -/
def sliceR {f u : ℕ} (k : Mat f (3 * u)) : Mat f u :=
  fun i j => k i ⟨u + j.val, by have := j.isLt; omega⟩

/-- Column block `k[:, 2*units:3*units]` (the `h̃` block). -/
def sliceH {f u : ℕ} (k : Mat f (3 * u)) : Mat f u :=
  fun i j => k i ⟨2 * u + j.val, by have := j.isLt; omega⟩

/-- `np.concatenate([A, B, C], axis=-1)` for three equal-width column blocks. -/
def hconcat3 {f u : ℕ} (A B C : Mat f u) : Mat f (3 * u) :=
  fun i j =>
    if h1 : j.val < u then A i ⟨j.val, h1⟩
    else if h2 : j.val < 2 * u then B i ⟨j.val - u, by omega⟩
    else C i ⟨j.val - 2 * u, by have := j.isLt; omega⟩

/-- Elementwise (`*`) product of two equally shaped arrays. -/
def hadamard {m n : ℕ} (A B : Mat m n) : Mat m n :=
  fun i j => A i j * B i j

/-- Update gate `x_z = sigmoid(x.dot(kernel_z) + prev_h.dot(recurrent_kernel_z))`. -/
def gruXZ (sg : ℚ → ℚ) {b f u : ℕ} (x : Mat b f) (prev_h : Mat b u)
    (kernel : Mat f (3 * u)) (rk : Mat u (3 * u)) : Mat b u :=
  fun i j => sg (matmulF x (sliceZ kernel) i j + matmulF prev_h (sliceZ rk) i j)

/-- Reset gate `x_r = sigmoid(x.dot(kernel_r) + prev_h.dot(recurrent_kernel_r))`. -/
def gruXR (sg : ℚ → ℚ) {b f u : ℕ} (x : Mat b f) (prev_h : Mat b u)
    (kernel : Mat f (3 * u)) (rk : Mat u (3 * u)) : Mat b u :=
  fun i j => sg (matmulF x (sliceR kernel) i j + matmulF prev_h (sliceR rk) i j)

/-- Candidate gate `x_h = tanh(x.dot(kernel_h) + (x_r * prev_h).dot(recurrent_kernel_h))`. -/
def gruXH (sg th : ℚ → ℚ) {b f u : ℕ} (x : Mat b f) (prev_h : Mat b u)
    (kernel : Mat f (3 * u)) (rk : Mat u (3 * u)) : Mat b u :=
  fun i j =>
    th (matmulF x (sliceH kernel) i j
      + matmulF (hadamard (gruXR sg x prev_h kernel rk) prev_h) (sliceH rk) i j)

/-- `operators.gru.forward`: `output = (1 - x_z) * x_h + x_z * prev_h`. -/
def gru_forward (sg th : ℚ → ℚ) {b f u : ℕ} (x : Mat b f) (prev_h : Mat b u)
    (kernel : Mat f (3 * u)) (recurrent_kernel : Mat u (3 * u)) : Mat b u :=
  let xz := gruXZ sg x prev_h kernel recurrent_kernel
  let xh := gruXH sg th x prev_h kernel recurrent_kernel
  fun i j => (1 - xz i j) * xh i j + xz i j * prev_h i j

/-- `x_z_raw_grad = (out_grad * (prev_h - x_h)) * x_z * (1 - x_z)`. -/
def gruXZRawGrad (sg th : ℚ → ℚ) {b f u : ℕ} (out_grad : Mat b u) (x : Mat b f)
    (prev_h : Mat b u) (kernel : Mat f (3 * u)) (rk : Mat u (3 * u)) : Mat b u :=
  let xz := gruXZ sg x prev_h kernel rk
  let xh := gruXH sg th x prev_h kernel rk
  fun i j => out_grad i j * (prev_h i j - xh i j) * xz i j * (1 - xz i j)

/-- `x_h_raw_grad = (out_grad * (1 - x_z)) * (1 - x_h ** 2)`. -/
def gruXHRawGrad (sg th : ℚ → ℚ) {b f u : ℕ} (out_grad : Mat b u) (x : Mat b f)
    (prev_h : Mat b u) (kernel : Mat f (3 * u)) (rk : Mat u (3 * u)) : Mat b u :=
  let xz := gruXZ sg x prev_h kernel rk
  let xh := gruXH sg th x prev_h kernel rk
  fun i j => out_grad i j * (1 - xz i j) * (1 - xh i j ^ 2)

/-- `x_r_raw_grad = (x_h_raw_grad.dot(recurrent_kernel_h.T) * prev_h) * x_r * (1 - x_r)`. -/
def gruXRRawGrad (sg th : ℚ → ℚ) {b f u : ℕ} (out_grad : Mat b u) (x : Mat b f)
    (prev_h : Mat b u) (kernel : Mat f (3 * u)) (rk : Mat u (3 * u)) : Mat b u :=
  let xr := gruXR sg x prev_h kernel rk
  let hr := gruXHRawGrad sg th out_grad x prev_h kernel rk
  fun i j => matmulF hr (transposeF (sliceH rk)) i j * prev_h i j * xr i j * (1 - xr i j)

/-- `kernel_z_grad = x.T.dot(x_z_raw_grad)`. -/
def gruKernelGradZ (sg th : ℚ → ℚ) {b f u : ℕ} (out_grad : Mat b u) (x : Mat b f)
    (prev_h : Mat b u) (kernel : Mat f (3 * u)) (rk : Mat u (3 * u)) : Mat f u :=
  matmulF (transposeF x) (gruXZRawGrad sg th out_grad x prev_h kernel rk)

/-- `kernel_r_grad = x.T.dot(x_r_raw_grad)`. -/
def gruKernelGradR (sg th : ℚ → ℚ) {b f u : ℕ} (out_grad : Mat b u) (x : Mat b f)
    (prev_h : Mat b u) (kernel : Mat f (3 * u)) (rk : Mat u (3 * u)) : Mat f u :=
  matmulF (transposeF x) (gruXRRawGrad sg th out_grad x prev_h kernel rk)

/-- `kernel_h_grad = x.T.dot(x_h_raw_grad)`. -/
def gruKernelGradH (sg th : ℚ → ℚ) {b f u : ℕ} (out_grad : Mat b u) (x : Mat b f)
    (prev_h : Mat b u) (kernel : Mat f (3 * u)) (rk : Mat u (3 * u)) : Mat f u :=
  matmulF (transposeF x) (gruXHRawGrad sg th out_grad x prev_h kernel rk)

/-- `recurrent_kernel_z_grad = prev_h.T.dot(x_z_raw_grad)`. -/
def gruRKernelGradZ (sg th : ℚ → ℚ) {b f u : ℕ} (out_grad : Mat b u) (x : Mat b f)
    (prev_h : Mat b u) (kernel : Mat f (3 * u)) (rk : Mat u (3 * u)) : Mat u u :=
  matmulF (transposeF prev_h) (gruXZRawGrad sg th out_grad x prev_h kernel rk)

/-- `recurrent_kernel_r_grad = prev_h.T.dot(x_r_raw_grad)`. -/
def gruRKernelGradR (sg th : ℚ → ℚ) {b f u : ℕ} (out_grad : Mat b u) (x : Mat b f)
    (prev_h : Mat b u) (kernel : Mat f (3 * u)) (rk : Mat u (3 * u)) : Mat u u :=
  matmulF (transposeF prev_h) (gruXRRawGrad sg th out_grad x prev_h kernel rk)

/-- `recurrent_kernel_h_grad = (prev_h * x_r).T.dot(x_h_raw_grad)`. -/
def gruRKernelGradH (sg th : ℚ → ℚ) {b f u : ℕ} (out_grad : Mat b u) (x : Mat b f)
    (prev_h : Mat b u) (kernel : Mat f (3 * u)) (rk : Mat u (3 * u)) : Mat u u :=
  matmulF (transposeF (hadamard prev_h (gruXR sg x prev_h kernel rk)))
    (gruXHRawGrad sg th out_grad x prev_h kernel rk)

/-- `operators.gru.backward`: returns `([x_grad, prev_h_grad], kernel_grad, r_kernel_grad)`
with the two packed gradients assembled by
`np.concatenate([·_z_grad, ·_r_grad, ·_h_grad], axis=-1)`. -/
def gru_backward (sg th : ℚ → ℚ) {b f u : ℕ} (out_grad : Mat b u) (x : Mat b f)
    (prev_h : Mat b u) (kernel : Mat f (3 * u)) (recurrent_kernel : Mat u (3 * u)) :
    (Mat b f × Mat b u) × Mat f (3 * u) × Mat u (3 * u) :=
  let zr := gruXZRawGrad sg th out_grad x prev_h kernel recurrent_kernel
  let rr := gruXRRawGrad sg th out_grad x prev_h kernel recurrent_kernel
  let hr := gruXHRawGrad sg th out_grad x prev_h kernel recurrent_kernel
  let xr := gruXR sg x prev_h kernel recurrent_kernel
  let xz := gruXZ sg x prev_h kernel recurrent_kernel
  let x_grad : Mat b f := fun i j =>
    matmulF zr (transposeF (sliceZ kernel)) i j
      + matmulF rr (transposeF (sliceR kernel)) i j
      + matmulF hr (transposeF (sliceH kernel)) i j
  let prev_h_grad : Mat b u := fun i j =>
    matmulF zr (transposeF (sliceZ recurrent_kernel)) i j
      + matmulF rr (transposeF (sliceR recurrent_kernel)) i j
      + matmulF hr (transposeF (sliceH recurrent_kernel)) i j * xr i j
      + out_grad i j * xz i j
  ((x_grad, prev_h_grad),
    hconcat3 (gruKernelGradZ sg th out_grad x prev_h kernel recurrent_kernel)
      (gruKernelGradR sg th out_grad x prev_h kernel recurrent_kernel)
      (gruKernelGradH sg th out_grad x prev_h kernel recurrent_kernel),
    hconcat3 (gruRKernelGradZ sg th out_grad x prev_h kernel recurrent_kernel)
      (gruRKernelGradR sg th out_grad x prev_h kernel recurrent_kernel)
      (gruRKernelGradH sg th out_grad x prev_h kernel recurrent_kernel))

/-!  Typed spatial model for `operators.pool`.

Spatial tensors are total functions `ℕ → ℕ → ℕ → ℕ → ℚ` (batch, channel, height,
width); the logical extent lives in `Dims4`.  This model is exact for
`operators.pool`, whose padding `np.pad(input, ((0,0), (0,0), ps, ps))` touches only
the two spatial axes. -/

abbrev Tens4 : Type := ℕ → ℕ → ℕ → ℕ → ℚ

/-- The logical extent `(batch, in_channel, in_height, in_width)` of a `Tens4`. -/
structure Dims4 where
  batch : ℕ
  channel : ℕ
  height : ℕ
  width : ℕ
deriving DecidableEq

/-- The `pool_params` configuration record. -/
structure PoolParams where
  pool_type : String
  pool_height : ℕ
  pool_width : ℕ
  stride : ℕ
  pad : ℕ
deriving DecidableEq

/-- Zero padding of the two spatial axes, `pLo` zeros before each spatial axis
(`np.pad(input, ((0,0), (0,0), (pLo, pHi), (pLo, pHi)))`; the function model only
needs the leading margin). -/
def padPerSide (input : Tens4) (h w pLo : ℕ) : Tens4 :=
  fun b c y x =>
    if pLo ≤ y ∧ y < pLo + h ∧ pLo ≤ x ∧ x < pLo + w then
      input b c (y - pLo) (x - pLo)
    else 0

/-- The flattened receptive field of `xp` at output cell `(i, j)`: the values
`xp[b, c, i*s + a, j*s + e]` for `a < ph`, `e < pw` in row-major order — the patch
axis produced by `img2col` followed by `reshape(batch, in_channel, -1, o_h, o_w)`. -/
def patchVals (xp : Tens4) (s ph pw b c i j : ℕ) : List ℚ :=
  (List.range ph).flatMap (fun a => (List.range pw).map (fun e => xp b c (i * s + a) (j * s + e)))

/-- Entry `k` of the flattened receptive field (row-major over `(ph, pw)`, so row
`k / pw`, column `k % pw`). -/
def patchValK (xp : Tens4) (s _ph pw b c i j k : ℕ) : ℚ :=
  xp b c (i * s + k / pw) (j * s + k % pw)

/-- `np.max(input_pool, axis=2, keepdims=True)`: the receptive-field maximum. -/
def patchMax (xp : Tens4) (s ph pw b c i j : ℕ) : ℚ :=
  (patchVals xp s ph pw b c i j).max?.getD 0

/-- The per-patch routed gradient of `pool.backward`: for `max`,
`(input_pool == np.max(input_pool, axis=2, keepdims=True)) * out_grad[:, :, None, :, :]`
(equality mask times the full, unsplit output gradient); for `avg`,
`1/(pool_height*pool_width) * out_grad` at every patch position. -/
def poolPatchGrad (ptype : String) (xp og : Tens4) (s ph pw b c i j k : ℕ) : ℚ :=
  if ptype = "max" then
    (if patchValK xp s ph pw b c i j k = patchMax xp s ph pw b c i j then 1 else 0)
      * og b c i j
  else if ptype = "avg" then
    1 / (ph * pw : ℚ) * og b c i j
  else 0

/-- The output-cell index list: `for i in recep_fields_h: for j in recep_fields_w`
with `recep_fields_h = [stride*i for i in range(out_height)]`; the pair `(i, j)`
stands for the receptive field with top-left corner `(stride*i, stride*j)`. -/
def cellList (oh ow : ℕ) : List (ℕ × ℕ) :=
  (List.range oh).flatMap (fun i => (List.range ow).map (fun j => (i, j)))

/-- One iteration of the scatter loop of `pool.backward`: the reshaped patch gradient
`input_pool_grad[:, :, :, idx].reshape(batch, in_channel, ph, pw)` of output cell
`ij`, placed at its receptive field (zero elsewhere). -/
def cellContrib (ptype : String) (xp og : Tens4) (s ph pw : ℕ) (ij : ℕ × ℕ) : Tens4 :=
  fun b c y x =>
    if ij.1 * s ≤ y ∧ y < ij.1 * s + ph ∧ ij.2 * s ≤ x ∧ x < ij.2 * s + pw then
      poolPatchGrad ptype xp og s ph pw b c ij.1 ij.2
        ((y - ij.1 * s) * pw + (x - ij.2 * s))
    else 0

/-- The scatter loop of `pool.backward`:
`input_pad_grad[:, :, i:i+ph, j:j+pw] += input_pool_grad[:, :, :, idx].reshape(...)`
folded over all output cells, starting from `np.zeros(input_pad.shape)`. -/
def poolScatter (ptype : String) (xp og : Tens4) (s ph pw oh ow : ℕ) : Tens4 :=
  (cellList oh ow).foldl
    (fun acc ij => fun b c y x =>
      acc b c y x + cellContrib ptype xp og s ph pw ij b c y x)
    (fun _ _ _ _ => 0)

/-- `operators.pool.backward`.  The padded buffer uses
`pad_scheme = (pad//2, pad - pad//2)` per side, while the final strip
`input_pad_grad[:, :, pad:pad+in_height, pad:pad+in_width]` offsets by the *total*
`pad` — both exactly as in the source. -/
def pool_backward_cls (pp : PoolParams) (d : Dims4) (out_grad input : Tens4) : Tens4 :=
  let oh := (out_size_pool_backward_cls d.height pp.pool_height pp.pad pp.stride).toNat
  let ow := (out_size_pool_backward_cls d.width pp.pool_width pp.pad pp.stride).toNat
  let xp := padPerSide input d.height d.width (pp.pad / 2)
  let padGrad :=
    poolScatter pp.pool_type xp out_grad pp.stride pp.pool_height pp.pool_width oh ow
  fun b c y x => padGrad b c (pp.pad + y) (pp.pad + x)

/-- One iteration body of the `operators.pool.forward` double loop: the reduction of
the receptive field at output cell `(i, j)` over the whole `(batch, channel)` slab;
an unknown `pool_type` raises `TypeError` here, *inside* the loop over output cells. -/
def poolReduceSlab (pp : PoolParams) (xp : Tens4) (i j : ℕ) : Except String (ℕ → ℕ → ℚ) :=
  if pp.pool_type = "max" then
    .ok (fun b c => (patchVals xp pp.stride pp.pool_height pp.pool_width b c i j).max?.getD 0)
  else if pp.pool_type = "avg" then
    .ok (fun b c =>
      (patchVals xp pp.stride pp.pool_height pp.pool_width b c i j).sum
        / (pp.pool_height * pp.pool_width : ℚ))
  else
    .error "pool_type should be max or avg"

/-- Output height of `operators.pool.forward`:
`get_output_size(in_height, pool_height, pad, stride)`. -/
def poolOutH (pp : PoolParams) (d : Dims4) : ℕ :=
  (get_output_size d.height pp.pool_height pp.pad pp.stride).toNat

/-- Output width of `operators.pool.forward`:
`get_output_size(in_width, pool_width, pad, stride)`. -/
def poolOutW (pp : PoolParams) (d : Dims4) : ℕ :=
  (get_output_size d.width pp.pool_width pp.pad pp.stride).toNat

/-- `operators.pool.forward`: output sizes via `get_output_size`, padding by
`int(pad/2)` per side, a double loop over output cells computing `amax`/`mean` of each
receptive field, then the transpose to `(batch, in_channel, out_height, out_width)`;
the result is that array flattened row-major. -/
def pool_forward_cls (pp : PoolParams) (d : Dims4) (input : Tens4) : Except String (List ℚ) :=
  let oh := poolOutH pp d
  let ow := poolOutW pp d
  let xp := padPerSide input d.height d.width (pp.pad / 2)
  match (cellList oh ow).mapM (fun ij => poolReduceSlab pp xp ij.1 ij.2) with
  | .error e => .error e
  | .ok slabs =>
    .ok ((List.range d.batch).flatMap (fun b =>
      (List.range d.channel).flatMap (fun c => slabs.map (fun slab => slab b c))))

/-!  Dynamic tensor model `NT` for the free functions of `nn/operations.py`.

Shapes are explicit data here because the behaviour under scrutiny is numpy shape
handling itself: `np.pad(input, pad_width=(pad,))` broadcasts the single pad width to
every axis of the array, so the batch and channel axes of a 4-D feature map are
padded too. -/

/-- A dense array: shape plus flat row-major data. -/
structure NT where
  shape : List ℕ
  data : List ℚ
deriving DecidableEq

/-- Number of elements of a shape. -/
def shProd (s : List ℕ) : ℕ := s.foldr (· * ·) 1

/-- All multi-indices of a shape, row-major. -/
def allIdx : List ℕ → List (List ℕ)
  | [] => [[]]
  | d :: ds => (List.range d).flatMap (fun i => (allIdx ds).map (fun r => i :: r))

/-- Row-major linear position of a multi-index. -/
def linPos : List ℕ → List ℕ → ℕ
  | [], _ => 0
  | _, [] => 0
  | _d :: ds, i :: r => i * shProd ds + linPos ds r

/-- Read one element (0 outside the stored data). -/
def ntGet (t : NT) (idx : List ℕ) : ℚ := t.data.getD (linPos t.shape idx) 0

/-- Build a tensor from a shape and an index function. -/
def ntOfFn (s : List ℕ) (f : List ℕ → ℚ) : NT := ⟨s, (allIdx s).map f⟩

/-- `np.zeros(shape)`. -/
def ntZeros (s : List ℕ) : NT := ⟨s, (List.range (shProd s)).map (fun _ => 0)⟩

/-- `np.pad(t, pad_width=(p,), mode="constant", constant_values=0)`: numpy broadcasts
the single pad width to EVERY axis, so all axes — including batch and channel of a
4-D feature map — grow by `2*p`. -/
def ntPadAll (t : NT) (p : ℕ) : NT :=
  ntOfFn (t.shape.map (fun d => d + 2 * p))
    (fun idx =>
      if (idx.zip t.shape).all (fun q => decide (p ≤ q.1 ∧ q.1 < p + q.2)) then
        ntGet t (idx.map (fun i => i - p))
      else 0)

/-- `operations.img2col(data, h_indices, w_indices, k_h, k_w)`: stacks, for every
`(i, j)` in `product(h_indices, w_indices)`, the slice
`data[:, :, i:i+k_h, j:j+k_w].reshape(data.shape[0], -1)` along a new last axis.
`np.stack` raises on an empty sequence and on ragged slice shapes (numpy slices
truncate at the array boundary). -/
def img2col (data : NT) (hIdx wIdx : List ℕ) (kh kw : ℕ) : Except String NT :=
  match data.shape with
  | [n0, n1, n2, n3] =>
    let pairs := hIdx.flatMap (fun i => wIdx.map (fun j => (i, j)))
    match pairs with
    | [] => .error "need at least one array to stack"
    | p0 :: rest =>
      let clamp := fun (ij : ℕ × ℕ) => (min kh (n2 - ij.1), min kw (n3 - ij.2))
      let d0 := clamp p0
      if rest.all (fun ij => decide (clamp ij = d0)) then
        .ok (ntOfFn [n0, n1 * d0.1 * d0.2, pairs.length]
          (fun idx =>
            match idx with
            | [b, m, n] =>
              let ij := pairs.getD n (0, 0)
              let c := m / (d0.1 * d0.2)
              let a := m % (d0.1 * d0.2) / d0.2
              let e := m % d0.2
              ntGet data [b, c, ij.1 + a, ij.2 + e]
            | _ => 0))
      else .error "all input arrays must have the same shape"
  | _ => .error "expected a 4d array"

/-- `t.reshape(spec)` with `-1` inferring one dimension; errors as numpy does when the
total size does not match (or divide).  Row-major data is unchanged. -/
def ntReshape (t : NT) (spec : List ℤ) : Except String NT :=
  let total := shProd t.shape
  let negs := (spec.filter (fun d => d < 0)).length
  let known := (spec.filter (fun d => 0 ≤ d)).foldr (fun d acc => d.toNat * acc) 1
  if negs = 0 then
    if known = total then .ok ⟨spec.map Int.toNat, t.data⟩
    else .error "cannot reshape array"
  else if negs = 1 ∧ spec.all (fun d => decide (-1 ≤ d)) then
    if known ≠ 0 ∧ known ∣ total then
      .ok ⟨spec.map (fun d => if d < 0 then total / known else d.toNat), t.data⟩
    else .error "cannot reshape array"
  else .error "can only specify one unknown dimension"

/-- `np.max(t, axis=2, keepdims=True)` for a 5-D array. -/
def ntMaxAxis2Keep (t : NT) : Except String NT :=
  match t.shape with
  | [a, b, k, d, e] =>
    if k = 0 then .error "zero-size array reduction"
    else
      .ok (ntOfFn [a, b, 1, d, e]
        (fun idx =>
          match idx with
          | [x, y, _, u, v] =>
            (((List.range k).map (fun z => ntGet t [x, y, z, u, v])).max?).getD 0
          | _ => 0))
  | _ => .error "expected a 5d array"

/-- `np.max(t, axis=2)` for a 5-D array (no keepdims). -/
def ntMaxAxis2Drop (t : NT) : Except String NT :=
  match t.shape with
  | [a, b, k, d, e] =>
    if k = 0 then .error "zero-size array reduction"
    else
      .ok (ntOfFn [a, b, d, e]
        (fun idx =>
          match idx with
          | [x, y, u, v] =>
            (((List.range k).map (fun z => ntGet t [x, y, z, u, v])).max?).getD 0
          | _ => 0))
  | _ => .error "expected a 5d array"

/-- `np.average(t, axis=2)` for a 5-D array. -/
def ntAvgAxis2Drop (t : NT) : Except String NT :=
  match t.shape with
  | [a, b, k, d, e] =>
    if k = 0 then .error "zero-size array reduction"
    else
      .ok (ntOfFn [a, b, d, e]
        (fun idx =>
          match idx with
          | [x, y, u, v] =>
            ((List.range k).map (fun z => ntGet t [x, y, z, u, v])).sum / (k : ℚ)
          | _ => 0))
  | _ => .error "expected a 5d array"

/-- Broadcast of two equal-rank shapes (every use in the source is equal-rank). -/
def bcastShape : List ℕ → List ℕ → Except String (List ℕ)
  | [], [] => .ok []
  | a :: xs, b :: ys =>
    match bcastShape xs ys with
    | .error e => .error e
    | .ok r =>
      if a = b then .ok (a :: r)
      else if a = 1 then .ok (b :: r)
      else if b = 1 then .ok (a :: r)
      else .error "operands could not be broadcast together"
  | _, _ => .error "operands could not be broadcast together"

/-- Source index of a broadcast read. -/
def bIdx (srcShape idx : List ℕ) : List ℕ :=
  (idx.zip srcShape).map (fun q => if q.2 = 1 then 0 else q.1)

/-- Elementwise combination with numpy broadcasting. -/
def ntElemwise (f : ℚ → ℚ → ℚ) (t u : NT) : Except String NT :=
  match bcastShape t.shape u.shape with
  | .error e => .error e
  | .ok s =>
    .ok (ntOfFn s (fun idx => f (ntGet t (bIdx t.shape idx)) (ntGet u (bIdx u.shape idx))))

/-- `t[:, :, np.newaxis, :, :]` for a 4-D array. -/
def ntExpandAxis2 (t : NT) : Except String NT :=
  match t.shape with
  | [a, b, c, d] => .ok ⟨[a, b, 1, c, d], t.data⟩
  | _ => .error "expected a 4d array"

/-- `np.repeat(t, k, axis=2)` for a 5-D array. -/
def ntRepeatAxis2 (t : NT) (k : ℕ) : Except String NT :=
  match t.shape with
  | [a, b, c, d, e] =>
    .ok (ntOfFn [a, b, c * k, d, e]
      (fun idx =>
        match idx with
        | [x, y, z, u, v] => ntGet t [x, y, z / k, u, v]
        | _ => 0))
  | _ => .error "expected a 5d array"

/-- Scalar multiple. -/
def ntScale (q : ℚ) (t : NT) : NT := ⟨t.shape, t.data.map (fun v => q * v)⟩

/-- `t[:, :, :, n]` for a 4-D array. -/
def ntIndexLast4 (t : NT) (n : ℕ) : Except String NT :=
  match t.shape with
  | [a, b, c, d] =>
    if n < d then
      .ok (ntOfFn [a, b, c]
        (fun idx =>
          match idx with
          | [x, y, z] => ntGet t [x, y, z, n]
          | _ => 0))
    else .error "index out of bounds"
  | _ => .error "expected a 4d array"

/-- In-place broadcastable slice add `t[:, :, i:i+ph, j:j+pw] += src` for a 4-D `t`
(slices truncate at the boundary; `src` must broadcast into the slice shape, which is
what numpy requires of an in-place `+=`). -/
def ntSliceAddHW (t : NT) (i j ph pw : ℕ) (src : NT) : Except String NT :=
  match t.shape with
  | [a, b, hh, ww] =>
    let sh := min ph (hh - i)
    let sw := min pw (ww - j)
    let tgt := [a, b, sh, sw]
    if src.shape.length = 4 ∧ (src.shape.zip tgt).all (fun q => decide (q.1 = q.2 ∨ q.1 = 1)) then
      .ok (ntOfFn [a, b, hh, ww]
        (fun idx =>
          match idx with
          | [x, y, u, v] =>
            ntGet t [x, y, u, v] +
              (if i ≤ u ∧ u < i + sh ∧ j ≤ v ∧ v < j + sw then
                ntGet src (bIdx src.shape [x, y, u - i, v - j])
              else 0)
          | _ => 0))
    else .error "could not broadcast into slice"
  | _ => .error "expected a 4d array"

/-- `t[:, :, h0:h0+hl, w0:w0+wl]` for a 4-D array (truncating at the boundary). -/
def ntSliceHW (t : NT) (h0 hl w0 wl : ℕ) : Except String NT :=
  match t.shape with
  | [a, b, hh, ww] =>
    .ok (ntOfFn [a, b, min hl (hh - h0), min wl (ww - w0)]
      (fun idx =>
        match idx with
        | [x, y, u, v] => ntGet t [x, y, h0 + u, w0 + v]
        | _ => 0))
  | _ => .error "expected a 4d array"

/-- `operations.pool_forward` over the dynamic model.  `pool_params` documents `pad`
per side (the output size is `1 + (n - k + 2*pad) // stride`), and
`np.pad(input, pad_width=(pad,))` pads every axis. -/
def pool_forward_ops (input : NT) (pp : PoolParams) : Except String NT :=
  match input.shape with
  | [batch, in_channel, in_height, in_width] =>
    let oh := (out_size_ops in_height pp.pool_height pp.pad pp.stride).toNat
    let ow := (out_size_ops in_width pp.pool_width pp.pad pp.stride).toNat
    let input_pad := ntPadAll input pp.pad
    let rf_h := (List.range oh).map (fun i => pp.stride * i)
    let rf_w := (List.range ow).map (fun i => pp.stride * i)
    match img2col input_pad rf_h rf_w pp.pool_height pp.pool_width with
    | .error e => .error e
    | .ok ip =>
      match ntReshape ip [(batch : ℤ), (in_channel : ℤ), -1, (oh : ℤ), (ow : ℤ)] with
      | .error e => .error e
      | .ok ip5 =>
        if pp.pool_type = "max" then ntMaxAxis2Drop ip5
        else if pp.pool_type = "avg" then ntAvgAxis2Drop ip5
        else .error "unsupported pooling type"
  | _ => .error "expected a 4d array"

/-- `operations.pool_backward` over the dynamic model, step for step: pad (every
axis), `img2col`, reshape to 5-D, the `max`/`avg` patch gradient (no `else` branch in
the source, so an unknown type leaves `input_pool_grad` unbound), reshape to 4-D, the
scatter loop of in-place slice adds, and the final strip
`input_pad_grad[:, :, pad:pad+in_height, pad:pad+in_width]`. -/
def pool_backward_ops (out_grad input : NT) (pp : PoolParams) : Except String NT :=
  match input.shape with
  | [batch, in_channel, in_height, in_width] =>
    let oh := (out_size_ops in_height pp.pool_height pp.pad pp.stride).toNat
    let ow := (out_size_ops in_width pp.pool_width pp.pad pp.stride).toNat
    let input_pad := ntPadAll input pp.pad
    let rf_h := (List.range oh).map (fun i => pp.stride * i)
    let rf_w := (List.range ow).map (fun i => pp.stride * i)
    match img2col input_pad rf_h rf_w pp.pool_height pp.pool_width with
    | .error e => .error e
    | .ok ip =>
      match ntReshape ip [(batch : ℤ), (in_channel : ℤ), -1, (oh : ℤ), (ow : ℤ)] with
      | .error e => .error e
      | .ok ip5 =>
        let graded : Except String NT :=
          if pp.pool_type = "max" then
            match ntMaxAxis2Keep ip5 with
            | .error e => .error e
            | .ok mx =>
              match ntElemwise (fun a b => if a = b then 1 else 0) ip5 mx with
              | .error e => .error e
              | .ok msk =>
                match ntExpandAxis2 out_grad with
                | .error e => .error e
                | .ok og5 => ntElemwise (fun a b => a * b) msk og5
          else if pp.pool_type = "avg" then
            if pp.pool_height * pp.pool_width = 0 then .error "division by zero"
            else
              match ntExpandAxis2 out_grad with
              | .error e => .error e
              | .ok og5 =>
                match ntRepeatAxis2 og5 (pp.pool_height * pp.pool_width) with
                | .error e => .error e
                | .ok rep => .ok (ntScale (1 / (pp.pool_height * pp.pool_width : ℚ)) rep)
          else .error "local variable input_pool_grad referenced before assignment"
        match graded with
        | .error e => .error e
        | .ok ipg =>
          match ntReshape ipg [(batch : ℤ), (in_channel : ℤ), -1, ((oh * ow : ℕ) : ℤ)] with
          | .error e => .error e
          | .ok ipg4 =>
            let pairs := rf_h.flatMap (fun i => rf_w.map (fun j => (i, j)))
            let looped := pairs.enum.foldlM
              (fun (acc : NT) (p : ℕ × (ℕ × ℕ)) =>
                (match ntIndexLast4 ipg4 p.1 with
                | .error e => .error e
                | .ok col =>
                  match ntReshape col
                      [(batch : ℤ), (in_channel : ℤ), (pp.pool_height : ℤ), (pp.pool_width : ℤ)] with
                  | .error e => .error e
                  | .ok colr => ntSliceAddHW acc p.2.1 p.2.2 pp.pool_height pp.pool_width colr :
                  Except String NT))
              (ntZeros input_pad.shape)
            match looped with
            | .error e => .error e
            | .ok final => ntSliceHW final pp.pad in_height pp.pad in_width
  | _ => .error "expected a 4d array"

end NNVerify

namespace NNVerify

/-- Floor division agrees with the rational floor of the exact quotient for a
positive divisor. -/
theorem fdiv_eq_floor (a s : ℤ) (hs : 0 < s) : a.fdiv s = ⌊(a : ℚ) / (s : ℚ)⌋ := by
  rw [Int.fdiv_eq_ediv a hs.le]
  obtain ⟨d, rfl⟩ : ∃ d : ℕ, s = (d : ℤ) := ⟨s.toNat, (Int.toNat_of_nonneg hs.le).symm⟩
  exact (Rat.floor_intCast_div_natCast a d).symm

/-- C1: every convolution and pooling forward pass computes its output spatial size
per axis as `floor((in + pad_total - kernel)/stride) + 1`: `operators.get_output_size`
(used by `conv.img2col`, `conv.col2img` and `pool.forward`, with `pad` total) and the
expression `1 + (n - k + 2*pad) // stride` inlined in `operations.conv_forward`,
`conv_backward`, `pool_forward` and `pool_backward` (whose `pad` is per-side, hence
total padding `2*pad`) both equal the spec formula; in particular
`in=28, pad=2, kernel=3, stride=1` gives `28`. -/
theorem C1_output_size_formula :
    (∀ n k p s : ℤ, 0 < s → get_output_size n k p s = ⌊((n : ℚ) + p - k) / (s : ℚ)⌋ + 1)
  ∧ (∀ n k p s : ℤ, 0 < s → out_size_ops n k p s = ⌊((n : ℚ) + 2 * p - k) / (s : ℚ)⌋ + 1)
  ∧ (∀ n k p s : ℤ, 0 < s →
      out_size_pool_backward_cls n k p s = ⌊((n : ℚ) + p - k) / (s : ℚ)⌋ + 1)
  ∧ get_output_size 28 3 2 1 = 28 := by
  refine ⟨fun n k p s hs => ?_, fun n k p s hs => ?_, fun n k p s hs => ?_, by decide⟩
  · rw [get_output_size, fdiv_eq_floor _ _ hs]
    push_cast
    ring_nf
  · rw [out_size_ops, fdiv_eq_floor _ _ hs]
    push_cast
    ring_nf
  · rw [out_size_pool_backward_cls, fdiv_eq_floor _ _ hs]
    push_cast
    ring_nf

/-- Witness for C1 at `n=28, k=3, p=2, s=1`. -/
theorem C1_output_size_witness :
    (0 : ℤ) < 1 ∧ get_output_size 28 3 2 1 = ⌊((28 : ℚ) + 2 - 3) / (1 : ℚ)⌋ + 1 :=
  ⟨by decide, C1_output_size_formula.1 28 3 2 1 (by decide)⟩

/-- C2 (code bug): `backward` does not always return gradients shaped like the
forward inputs.  `operations.pool_backward` pads with `np.pad(input, pad_width=(pad,))`,
which pads the batch and channel axes too; on input of shape `(1,1,2,2)` with a 2×2
max pool, `stride=1`, `pad=1` (per-side) and `out_grad` of shape `(1,1,3,3)`, the
per-patch gradient column has 36 entries and its reshape to
`(batch, in_channel, pool_height, pool_width) = (1,1,2,2)` raises `ValueError`, so the
call fails instead of returning an input-shaped gradient. -/
theorem C2_pool_backward_pad_raises :
    pool_backward_ops ⟨[1, 1, 3, 3], List.replicate 9 (1 : ℚ)⟩
      ⟨[1, 1, 2, 2], [1, 2, 3, 4]⟩ ⟨"max", 2, 2, 1, 1⟩ = .error "cannot reshape array" := rfl

/-- C3 (counterexample): with `weights=[[1,0],[0,1]]`, `bias=[0,0]`, `input=[[1,2]]`
and `grad_output=[[1,1]]`, the weight gradient `input.T @ grad_output` returned by
`fc_backward` is `[[1,1],[2,2]]`, not the `[[1,2],[1,2]]` the claim states (they
differ at position `(0,1)`: `1` vs `2`). -/
theorem C3_fc_scenario_counterexample :
    (fc_backward scenarioOutGrad scenarioInput scenarioWeights scenarioBias).2.1
      ≠ (fun _ j => if j.val = 0 then 1 else 2) := by
  intro h
  have h2 := congrFun (congrFun h 0) 1
  simp [fc_backward, matmulF, transposeF, scenarioInput, scenarioOutGrad,
    Fin.sum_univ_two] at h2

/-- C3 (amended): in the end-to-end scenario, forward returns `[[1,2]]` and backward
returns `grad_input=[[1,1]]`, `grad_weights=[[1,1],[2,2]]` (not `[[1,2],[1,2]]`) and
`grad_bias=[1,1]` — for the free functions `fc_forward`/`fc_backward` and for the
class-based `linear` alike. -/
theorem C3_fc_scenario_amended :
    fc_forward scenarioInput scenarioWeights scenarioBias = scenarioInput
  ∧ fc_backward scenarioOutGrad scenarioInput scenarioWeights scenarioBias
      = (scenarioOutGrad, fun i _ => if i.val = 0 then 1 else 2, fun _ => 1)
  ∧ linear_forward scenarioInput scenarioWeights scenarioBias = scenarioInput
  ∧ linear_backward scenarioOutGrad scenarioInput scenarioWeights scenarioBias
      = (scenarioOutGrad, fun i _ => if i.val = 0 then 1 else 2, fun _ => 1) := by
  have hfwd : fc_forward scenarioInput scenarioWeights scenarioBias = scenarioInput := by
    funext i j
    fin_cases i
    fin_cases j <;>
      simp [fc_forward, matmulF, scenarioInput, scenarioWeights, scenarioBias,
        Fin.sum_univ_two]
  have hin : matmulF scenarioOutGrad (transposeF scenarioWeights) = scenarioOutGrad := by
    funext i j
    fin_cases i
    fin_cases j <;>
      simp [matmulF, transposeF, scenarioOutGrad, scenarioWeights, Fin.sum_univ_two]
  have hw : matmulF (transposeF scenarioInput) scenarioOutGrad
      = (fun i _ => if i.val = 0 then 1 else 2 : Mat 2 2) := by
    funext i j
    fin_cases i <;> fin_cases j <;>
      simp [matmulF, transposeF, scenarioInput, scenarioOutGrad, Fin.sum_univ_one]
  have hb : colSum scenarioOutGrad = (fun _ => 1 : Vec 2) := by
    funext j
    fin_cases j <;> simp [colSum, scenarioOutGrad, Fin.sum_univ_one]
  refine ⟨hfwd, ?_, hfwd, ?_⟩
  · rw [fc_backward, hin, hw, hb]
  · rw [linear_backward, add_bias_backward, matmul_cls_backward]
    rw [show (matmulF scenarioOutGrad (transposeF scenarioWeights),
        matmulF (transposeF scenarioInput) scenarioOutGrad) = (scenarioOutGrad,
        (fun i _ => if i.val = 0 then 1 else 2 : Mat 2 2)) by rw [hin, hw], hb]

/-- C5: with `training=True` and a fixed integer seed, the dropout forward pass is a
function of `(input, rate, seed)` alone — `np.random.seed(seed)` overwrites the global
generator state, so two calls made at arbitrary generator states `g1`, `g2` return
identical outputs and masks (for the free function and the class alike); with
`training=False` the output is exactly the input and no mask is produced (the free
function returns `mask = None`; the class leaves `self.mask` untouched). -/
theorem C5_dropout_determinism (sample : ℕ → ℕ → ℚ) (input : List ℚ) (rate : ℚ)
    (seed : ℕ) (prevMask : Option (List ℚ)) (g1 g2 : ℕ) :
    dropout_forward sample input rate true seed g1
      = dropout_forward sample input rate true seed g2
  ∧ dropout_cls_forward sample input rate true seed prevMask g1
      = dropout_cls_forward sample input rate true seed prevMask g2
  ∧ dropout_forward sample input rate false seed g1 = some (input, none)
  ∧ dropout_cls_forward sample input rate false seed prevMask g1 = some (input, prevMask) :=
  ⟨rfl, rfl, rfl, rfl⟩

/-- C4: for every logits matrix and label vector, the forward pass returns the
negative mean of the true-class log-probabilities, where
`log_probs i j = input i j - rowMax input i - log(Z_i + 1e-12)` with
`Z_i = Σ_j exp(input i j - rowMax input i)` (the per-row softmax of the max-shifted
logits, epsilon inside the log) and `probs = exp(log_probs)`; and the backward pass
returns `(probs - one_hot(labels)) / batch` with `probs` equal to the `probs` that
forward returns on the same inputs. -/
theorem C4_softmax_cross_entropy_spec (E L : ℚ → ℚ) (b c : ℕ)
    (input : Mat (b + 1) (c + 1)) (labels : Fin (b + 1) → Fin (c + 1)) :
    (softmax_cross_entropy_forward E L input labels).1
      = -(∑ i, (input i (labels i) - rowMax input i
          - L ((∑ j, E (input i j - rowMax input i)) + 1 / 10 ^ 12))) / ((b : ℚ) + 1)
  ∧ (softmax_cross_entropy_forward E L input labels).2
      = (fun i j => E (input i j - rowMax input i
          - L ((∑ k, E (input i k - rowMax input i)) + 1 / 10 ^ 12)))
  ∧ softmax_cross_entropy_backward E L input labels
      = (fun i j => ((softmax_cross_entropy_forward E L input labels).2 i j
          - if j = labels i then 1 else 0) / ((b : ℚ) + 1)) := by
  refine ⟨?_, rfl, ?_⟩
  · show -1 * (∑ i, sceLogProbs E L input i (labels i)) / ((b : ℚ) + 1) = _
    rw [neg_one_mul]
    rfl
  · funext i j
    show (if j = labels i then _ - 1 else _) / _ = _
    split
    · rfl
    · rw [sub_zero]
      rfl

/-- A `mapM` over a nonempty list whose entries all fail with the same error fails
with that error. -/
theorem mapM_error_of_all {α β : Type} (l : List α) (f : α → Except String β) (e : String)
    (hne : l ≠ []) (hall : ∀ a ∈ l, f a = .error e) :
    l.mapM f = .error e := by
  cases l with
  | nil => exact absurd rfl hne
  | cons hd tl =>
    rw [List.mapM_cons, hall hd (List.mem_cons_self hd tl)]
    rfl

/-- The output-cell list is nonempty when both output sizes are positive. -/
theorem cellList_ne_nil (oh ow : ℕ) (h1 : 0 < oh) (h2 : 0 < ow) : cellList oh ow ≠ [] := by
  have hmem : ((0, 0) : ℕ × ℕ) ∈ cellList oh ow := by
    unfold cellList
    refine List.mem_flatMap.mpr ⟨0, List.mem_range.mpr h1, ?_⟩
    exact List.mem_map.mpr ⟨0, List.mem_range.mpr h2, rfl⟩
  exact List.ne_nil_of_mem hmem

/-- C6 (amended): with a `pool_type` that is neither `max` nor `avg`, the
free-function `operations.pool_forward` never returns a value, and the class-based
`operators.pool.forward` raises its invalid-configuration `TypeError` whenever the
output spatial size is positive; the one carve-out (forced by the counterexample) is
that the class-based loop performs the check per output cell, so with an empty output
grid it returns the empty output without ever checking. -/
theorem C6_invalid_pool_type_amended (pp : PoolParams) (d : Dims4) (input : Tens4)
    (hmax : pp.pool_type ≠ "max") (havg : pp.pool_type ≠ "avg")
    (hoh : 0 < poolOutH pp d) (how : 0 < poolOutW pp d) :
    pool_forward_cls pp d input = .error "pool_type should be max or avg"
  ∧ ∀ (t : NT) (pq : PoolParams), pq.pool_type ≠ "max" → pq.pool_type ≠ "avg" →
      ∀ r : NT, pool_forward_ops t pq ≠ .ok r := by
  constructor
  · have hm : (cellList (poolOutH pp d) (poolOutW pp d)).mapM
        (fun ij => poolReduceSlab pp (padPerSide input d.height d.width (pp.pad / 2)) ij.1 ij.2)
        = .error "pool_type should be max or avg" := by
      refine mapM_error_of_all _ _ _ (cellList_ne_nil _ _ hoh how) (fun ij _ => ?_)
      unfold poolReduceSlab
      rw [if_neg hmax, if_neg havg]
    simp only [pool_forward_cls]
    rw [hm]
  · intro t pq h1 h2 r hok
    simp only [pool_forward_ops] at hok
    split at hok
    · split at hok
      · exact Except.noConfusion hok
      · split at hok
        · exact Except.noConfusion hok
        · rw [if_neg h1, if_neg h2] at hok
          exact Except.noConfusion hok
    · exact Except.noConfusion hok

/-- Witness for C6 (amended) at `pool_type="sum"`, input extent `(1,1,3,3)`, 2×2
pool, `stride=1`, `pad=0` (output spatial size `2×2 > 0`). -/
theorem C6_invalid_pool_type_witness :
    ((⟨"sum", 2, 2, 1, 0⟩ : PoolParams).pool_type ≠ "max"
      ∧ (⟨"sum", 2, 2, 1, 0⟩ : PoolParams).pool_type ≠ "avg"
      ∧ 0 < poolOutH ⟨"sum", 2, 2, 1, 0⟩ ⟨1, 1, 3, 3⟩
      ∧ 0 < poolOutW ⟨"sum", 2, 2, 1, 0⟩ ⟨1, 1, 3, 3⟩)
  ∧ (pool_forward_cls ⟨"sum", 2, 2, 1, 0⟩ ⟨1, 1, 3, 3⟩ (fun _ _ _ _ => 0)
        = .error "pool_type should be max or avg"
      ∧ ∀ (t : NT) (pq : PoolParams), pq.pool_type ≠ "max" → pq.pool_type ≠ "avg" →
          ∀ r : NT, pool_forward_ops t pq ≠ .ok r) :=
  ⟨⟨by decide, by decide, by decide, by decide⟩,
    C6_invalid_pool_type_amended ⟨"sum", 2, 2, 1, 0⟩ ⟨1, 1, 3, 3⟩ (fun _ _ _ _ => 0)
      (by decide) (by decide) (by decide) (by decide)⟩

/-- C6 (counterexample to the claim as stated): the class-based `pool.forward` with
the unsupported `pool_type="sum"` on a `(1,1,1,1)` input and a 2×2 pool (output
spatial size `0×0`) returns the empty output instead of raising — the type check
sits inside the loop over output cells, which never runs. -/
theorem C6_invalid_pool_type_counterexample :
    pool_forward_cls ⟨"sum", 2, 2, 1, 0⟩ ⟨1, 1, 1, 1⟩ (fun _ _ _ _ => 0) = .ok [] := rfl

/-- Pointwise value of the function-valued scatter fold: the final buffer holds
`init` PLUS THE SUM of every per-cell contribution — contributions accumulate, they
are never overwritten. -/
theorem foldl_cellContrib (l : List (ℕ × ℕ)) (g : ℕ × ℕ → Tens4) (init : Tens4)
    (b c y x : ℕ) :
    (l.foldl (fun acc ij => fun b' c' y' x' => acc b' c' y' x' + g ij b' c' y' x') init)
        b c y x
      = init b c y x + (l.map (fun ij => g ij b c y x)).sum := by
  induction l generalizing init with
  | nil => simp
  | cons hd tl ih =>
    rw [List.foldl_cons, ih]
    simp [add_assoc]

/-- C7: in max-pooling backward, the padded gradient buffer at any position equals
the SUM over all output cells whose receptive field covers that position of the
per-cell routed gradient, and the routed gradient is the FULL output gradient of the
cell at every position whose value ties the patch maximum (equality mask) and `0` at
every other position. -/
theorem C7_maxpool_backward_routing (xp og : Tens4) (s ph pw oh ow b c y x : ℕ) :
    poolScatter "max" xp og s ph pw oh ow b c y x
      = ((cellList oh ow).map (fun ij =>
          if ij.1 * s ≤ y ∧ y < ij.1 * s + ph ∧ ij.2 * s ≤ x ∧ x < ij.2 * s + pw then
            (if patchValK xp s ph pw b c ij.1 ij.2 ((y - ij.1 * s) * pw + (x - ij.2 * s))
                = patchMax xp s ph pw b c ij.1 ij.2 then
              og b c ij.1 ij.2
            else 0)
          else 0)).sum
  ∧ ∀ i j k, poolPatchGrad "max" xp og s ph pw b c i j k
      = (if patchValK xp s ph pw b c i j k = patchMax xp s ph pw b c i j then
          og b c i j
        else 0) := by
  constructor
  · refine Eq.trans
      (foldl_cellContrib (cellList oh ow) (cellContrib "max" xp og s ph pw)
        (fun _ _ _ _ => 0) b c y x) ?_
    rw [zero_add]
    have hfun : (fun ij : ℕ × ℕ => cellContrib "max" xp og s ph pw ij b c y x)
        = (fun ij : ℕ × ℕ =>
            if ij.1 * s ≤ y ∧ y < ij.1 * s + ph ∧ ij.2 * s ≤ x ∧ x < ij.2 * s + pw then
              (if patchValK xp s ph pw b c ij.1 ij.2 ((y - ij.1 * s) * pw + (x - ij.2 * s))
                  = patchMax xp s ph pw b c ij.1 ij.2 then
                og b c ij.1 ij.2
              else 0)
            else 0) := by
      funext ij
      simp [cellContrib, poolPatchGrad, ite_mul, one_mul, zero_mul]
    rw [hfun]
  · intro i j k
    simp [poolPatchGrad, ite_mul, one_mul, zero_mul]

/-- Slicing the `z` block back out of a 3-block column concatenation. -/
theorem sliceZ_hconcat3 {f u : ℕ} (A B C : Mat f u) : sliceZ (hconcat3 A B C) = A := by
  funext i j
  simp only [sliceZ, hconcat3]
  rw [dif_pos j.isLt]

/-- Slicing the `r` block back out of a 3-block column concatenation. -/
theorem sliceR_hconcat3 {f u : ℕ} (A B C : Mat f u) : sliceR (hconcat3 A B C) = B := by
  funext i j
  have hj := j.isLt
  simp only [sliceR, hconcat3]
  rw [dif_neg (by omega), dif_pos (by omega)]
  congr 1
  rw [Fin.ext_iff]
  simp

/-- Slicing the `h̃` block back out of a 3-block column concatenation. -/
theorem sliceH_hconcat3 {f u : ℕ} (A B C : Mat f u) : sliceH (hconcat3 A B C) = C := by
  funext i j
  have hj := j.isLt
  simp only [sliceH, hconcat3]
  rw [dif_neg (by omega), dif_neg (by omega)]
  congr 1
  rw [Fin.ext_iff]
  simp

/-- C8: `gru.backward` returns `kernel_grad` equal to the column concatenation of
the three per-gate blocks in the unpack order `z, r, h̃`, with the type (shape) of
the packed `kernel`; slicing it with the same column slices used to unpack `kernel`
recovers exactly `x.T·z_raw_grad`, `x.T·r_raw_grad`, `x.T·h_raw_grad`; likewise the
recurrent-kernel gradient, with the shape of `recurrent_kernel`. -/
theorem C8_gru_gate_partition (sg th : ℚ → ℚ) (b f u : ℕ) (out_grad : Mat b u)
    (x : Mat b f) (prev_h : Mat b u) (kernel : Mat f (3 * u))
    (recurrent_kernel : Mat u (3 * u)) :
    ((gru_backward sg th out_grad x prev_h kernel recurrent_kernel).2.1
        = hconcat3 (gruKernelGradZ sg th out_grad x prev_h kernel recurrent_kernel)
            (gruKernelGradR sg th out_grad x prev_h kernel recurrent_kernel)
            (gruKernelGradH sg th out_grad x prev_h kernel recurrent_kernel)
      ∧ sliceZ (gru_backward sg th out_grad x prev_h kernel recurrent_kernel).2.1
          = gruKernelGradZ sg th out_grad x prev_h kernel recurrent_kernel
      ∧ sliceR (gru_backward sg th out_grad x prev_h kernel recurrent_kernel).2.1
          = gruKernelGradR sg th out_grad x prev_h kernel recurrent_kernel
      ∧ sliceH (gru_backward sg th out_grad x prev_h kernel recurrent_kernel).2.1
          = gruKernelGradH sg th out_grad x prev_h kernel recurrent_kernel)
  ∧ ((gru_backward sg th out_grad x prev_h kernel recurrent_kernel).2.2
        = hconcat3 (gruRKernelGradZ sg th out_grad x prev_h kernel recurrent_kernel)
            (gruRKernelGradR sg th out_grad x prev_h kernel recurrent_kernel)
            (gruRKernelGradH sg th out_grad x prev_h kernel recurrent_kernel)
      ∧ sliceZ (gru_backward sg th out_grad x prev_h kernel recurrent_kernel).2.2
          = gruRKernelGradZ sg th out_grad x prev_h kernel recurrent_kernel
      ∧ sliceR (gru_backward sg th out_grad x prev_h kernel recurrent_kernel).2.2
          = gruRKernelGradR sg th out_grad x prev_h kernel recurrent_kernel
      ∧ sliceH (gru_backward sg th out_grad x prev_h kernel recurrent_kernel).2.2
          = gruRKernelGradH sg th out_grad x prev_h kernel recurrent_kernel) :=
  ⟨⟨rfl, sliceZ_hconcat3 _ _ _, sliceR_hconcat3 _ _ _, sliceH_hconcat3 _ _ _⟩,
    ⟨rfl, sliceZ_hconcat3 _ _ _, sliceR_hconcat3 _ _ _, sliceH_hconcat3 _ _ _⟩⟩

/-- C10: dropout forward in training mode computes `scale = 1/(1-rate)` with no
guard: at `rate = 1` the division by zero makes the call fail (it returns no
output), while for every `rate ∈ [0, 1)` the call succeeds — for the free function
and the class alike. -/
theorem C10_dropout_rate_one (sample : ℕ → ℕ → ℚ) (input : List ℚ) (seed g : ℕ)
    (prevMask : Option (List ℚ)) (rate : ℚ) (_h0 : 0 ≤ rate) (h1 : rate < 1) :
    dropout_forward sample input 1 true seed g = none
  ∧ dropout_cls_forward sample input 1 true seed prevMask g = none
  ∧ (dropout_forward sample input rate true seed g).isSome = true
  ∧ (dropout_cls_forward sample input rate true seed prevMask g).isSome = true := by
  have hne : (1 : ℚ) - rate ≠ 0 := by
    intro hc
    nlinarith
  refine ⟨?_, ?_, ?_, ?_⟩
  · simp [dropout_forward]
  · simp [dropout_cls_forward]
  · simp [dropout_forward, hne]
  · simp [dropout_cls_forward, hne]

/-- Witness for C10 at `rate = 1/2` (and the concrete sampler `0`, input `[1]`). -/
theorem C10_dropout_rate_one_witness :
    ((0 : ℚ) ≤ 1 / 2 ∧ (1 : ℚ) / 2 < 1)
  ∧ (dropout_forward (fun _ _ => 0) [1] 1 true 0 0 = none
      ∧ dropout_cls_forward (fun _ _ => 0) [1] 1 true 0 none 0 = none
      ∧ (dropout_forward (fun _ _ => 0) [1] (1 / 2) true 0 0).isSome = true
      ∧ (dropout_cls_forward (fun _ _ => 0) [1] (1 / 2) true 0 none 0).isSome = true) :=
  ⟨⟨by norm_num, by norm_num⟩,
    C10_dropout_rate_one (fun _ _ => 0) [1] 0 0 none (1 / 2) (by norm_num) (by norm_num)⟩

end NNVerify
